import Mathlib

/-
Verification of the PixelAir Home Assistant integration
(custom_components/pixelair, with custom_components/fluora as an earlier
revision of the same code).  The development shallowly embeds the parts of
the integration relevant to the shared UDP transport refcounting
(`__init__.py`), the config flow (`config_flow.py`), the data update
coordinator (`coordinator.py`) and the light entity (`light.py`).
Opaque library calls (libpixelair) are modelled by passing their outcome
as an explicit `Except`/`Option` argument.
-/

namespace PixelAir

/-! ## Shared UDP transport (`__init__.py`)

`PixelAirDomainData` holds the process-wide shared `UDPListener` and its
reference count.  Listeners are identified by a generation number
(`nextListenerId`) so that "a fresh listener" and "the same listener"
are expressible; the Python object identity plays that role in the source.
The reference count is an unbounded Python `int`, embedded as `Int`. -/

structure DomainData where
  listener : Option Nat
  listenerRefCount : Int
  nextListenerId : Nat
deriving DecidableEq, Repr

/-- Fresh domain data, as created by `get_domain_data` on first use:
no listener, reference count 0. -/
def initialDomainData : DomainData :=
  { listener := none, listenerRefCount := 0, nextListenerId := 0 }

/-- Setup failure outcomes of `async_setup_entry` (each raised as
`ConfigEntryNotReady` in the source, except the listener-start failure,
which propagates the underlying exception). -/
inductive SetupError where
  | startFailed
  | missingIdentifiers
  | deviceNotFound
  | connectFailed
deriving DecidableEq, Repr

/-- Python truthiness test for an optional string: `not s` holds for
`None` and for the empty string. -/
def pyStrFalsy : Option String → Bool
  | none => true
  | some s => s.isEmpty

/-- Embedding of `async_setup_entry` (`custom_components/pixelair/__init__.py`,
the transport-acquisition and device-construction region, lines 98-133):

* if `domain_data.listener is None`, a `UDPListener` is constructed and
  started (`startOk` is the outcome of `await listener.start()`; on failure
  the exception propagates and the listener is not stored);
* `domain_data.listener_ref_count += 1`;
* missing `mac_address`/`serial_number` raises `ConfigEntryNotReady`;
* `PixelAirDevice.from_identifiers` (opaque library call, outcome passed as
  `deviceLookup`) raising maps to `connectFailed`, returning `None` maps to
  `deviceNotFound`.

Returns the updated domain data together with either the id of the listener
used by the session or the error raised. -/
def asyncSetupEntry (d : DomainData) (startOk : Bool)
    (mac serial : Option String) (deviceLookup : Except Unit (Option Unit)) :
    DomainData × Except SetupError Nat :=
  match d.listener with
  | none =>
      if startOk then
        let lid := d.nextListenerId
        let d1 : DomainData :=
          { listener := some lid, listenerRefCount := d.listenerRefCount,
            nextListenerId := d.nextListenerId + 1 }
        setupAfterListener d1 lid mac serial deviceLookup
      else
        (d, .error .startFailed)
  | some lid => setupAfterListener d lid mac serial deviceLookup
where
  /-- Continuation of `async_setup_entry` after the shared listener exists:
  the increment of `listener_ref_count` followed by the identifier check and
  the `from_identifiers` call. -/
  setupAfterListener (d : DomainData) (lid : Nat) (mac serial : Option String)
      (deviceLookup : Except Unit (Option Unit)) :
      DomainData × Except SetupError Nat :=
    let d1 : DomainData := { d with listenerRefCount := d.listenerRefCount + 1 }
    if pyStrFalsy mac || pyStrFalsy serial then
      (d1, .error .missingIdentifiers)
    else
      match deviceLookup with
      | .error _ => (d1, .error .connectFailed)
      | .ok none => (d1, .error .deviceNotFound)
      | .ok (some _) => (d1, .ok lid)

/-- Embedding of the listener-release region of `async_unload_entry`
(`custom_components/pixelair/__init__.py` lines 185-198), run when the
platforms unloaded successfully:

* `domain_data.listener_ref_count -= 1`;
* if the count is now `<= 0`: stop the listener if one is present, clear
  it, and reset the count to 0.

The second component lists the ids of the listeners stopped by this call
(`await listener.stop()` events). -/
def asyncUnloadEntry (d : DomainData) : DomainData × List Nat :=
  let cnt := d.listenerRefCount - 1
  if cnt ≤ 0 then
    match d.listener with
    | some lid =>
        ({ listener := none, listenerRefCount := 0,
           nextListenerId := d.nextListenerId }, [lid])
    | none =>
        ({ listener := none, listenerRefCount := 0,
           nextListenerId := d.nextListenerId }, [])
  else
    ({ d with listenerRefCount := cnt }, [])

/-- One step of the transport lifecycle: an entry setup (with its
environment outcomes) or an entry unload. -/
inductive TransportOp where
  | setup (startOk : Bool) (mac serial : Option String)
      (deviceLookup : Except Unit (Option Unit))
  | unload
deriving Repr

/-- Apply one transport operation; returns the new domain data and the
listener-stop events emitted. -/
def stepTransport (d : DomainData) : TransportOp → DomainData × List Nat
  | .setup startOk mac serial deviceLookup =>
      ((asyncSetupEntry d startOk mac serial deviceLookup).1, [])
  | .unload => asyncUnloadEntry d

/-- Run a sequence of transport operations from a given state, collecting
all listener-stop events in order. -/
def runTransport (d : DomainData) : List TransportOp → DomainData × List Nat
  | [] => (d, [])
  | op :: ops =>
      let r1 := stepTransport d op
      let r2 := runTransport r1.1 ops
      (r2.1, r1.2 ++ r2.2)

/-- Invariant relating the shared listener and its reference count. -/
def DomainInv (d : DomainData) : Prop :=
  (d.listener.isSome ↔ 0 < d.listenerRefCount) ∧
  0 ≤ d.listenerRefCount ∧
  (∀ l, d.listener = some l → l < d.nextListenerId)

/-- Lower bound for every listener id that can still be stopped from
state `d`: the current listener's id, or the next fresh id if none. -/
def stopLowerBound (d : DomainData) : Nat :=
  match d.listener with
  | some l => l
  | none => d.nextListenerId

lemma domainInv_initial : DomainInv initialDomainData := by
  refine ⟨by simp [initialDomainData], by simp [initialDomainData], ?_⟩
  intro l hl
  simp [initialDomainData] at hl

lemma setupAfterListener_fst (d : DomainData) (lid : Nat)
    (mac serial : Option String) (deviceLookup : Except Unit (Option Unit)) :
    (asyncSetupEntry.setupAfterListener d lid mac serial deviceLookup).1 =
      { d with listenerRefCount := d.listenerRefCount + 1 } := by
  unfold asyncSetupEntry.setupAfterListener
  split
  · rfl
  · split <;> rfl

lemma asyncSetupEntry_fst (d : DomainData) (startOk : Bool)
    (mac serial : Option String) (deviceLookup : Except Unit (Option Unit)) :
    (asyncSetupEntry d startOk mac serial deviceLookup).1 =
      match d.listener with
      | none =>
          if startOk then
            { listener := some d.nextListenerId,
              listenerRefCount := d.listenerRefCount + 1,
              nextListenerId := d.nextListenerId + 1 }
          else d
      | some _ =>
          { d with listenerRefCount := d.listenerRefCount + 1 } := by
  unfold asyncSetupEntry
  cases hl : d.listener with
  | none =>
      cases startOk with
      | false => rfl
      | true => simp only [setupAfterListener_fst, if_true]
  | some lid =>
      simp only [setupAfterListener_fst]
      rw [hl]

lemma stepTransport_inv (d : DomainData) (op : TransportOp)
    (h : DomainInv d) : DomainInv (stepTransport d op).1 := by
  obtain ⟨hiff, hge, hlt⟩ := h
  cases op with
  | setup startOk mac serial deviceLookup =>
      simp only [stepTransport, asyncSetupEntry_fst]
      cases hl : d.listener with
      | none =>
          cases startOk with
          | false => exact ⟨hiff, hge, hlt⟩
          | true =>
              refine ⟨by simp; omega, by simp; omega, ?_⟩
              intro l hle
              simp at hle ⊢
              omega
      | some lid =>
          refine ⟨by simp [hl]; omega, by simp; omega, ?_⟩
          intro l hle
          simp at hle ⊢
          exact hle ▸ hlt lid hl
  | unload =>
      simp only [stepTransport, asyncUnloadEntry]
      split
      · cases d.listener with
        | some lid => exact ⟨by simp, by simp, by intro l hle; simp at hle⟩
        | none => exact ⟨by simp, by simp, by intro l hle; simp at hle⟩
      · rename_i hcnt
        have hsome : d.listener.isSome := hiff.mpr (by omega)
        refine ⟨⟨fun _ => by simp; omega, fun _ => by simpa using hsome⟩, by simp; omega, ?_⟩
        intro l hle
        simp at hle ⊢
        exact hlt l hle

lemma stepTransport_lb_mono (d : DomainData) (op : TransportOp)
    (h : DomainInv d) :
    stopLowerBound d ≤ stopLowerBound (stepTransport d op).1 := by
  obtain ⟨hiff, hge, hlt⟩ := h
  cases op with
  | setup startOk mac serial deviceLookup =>
      simp only [stepTransport, asyncSetupEntry_fst]
      cases hl : d.listener with
      | none =>
          cases startOk with
          | false => simp [stopLowerBound, hl]
          | true => simp [stopLowerBound, hl]
      | some lid => simp [stopLowerBound, hl]
  | unload =>
      simp only [stepTransport, asyncUnloadEntry]
      split
      · cases hl : d.listener with
        | some lid =>
            have := hlt lid hl
            simp only [stopLowerBound, hl]
            omega
        | none => simp [stopLowerBound, hl]
      · simp [stopLowerBound]

lemma stepTransport_stops (d : DomainData) (op : TransportOp)
    (h : DomainInv d) :
    ∀ s ∈ (stepTransport d op).2,
      stopLowerBound d ≤ s ∧ s < stopLowerBound (stepTransport d op).1 := by
  obtain ⟨hiff, hge, hlt⟩ := h
  cases op with
  | setup startOk mac serial deviceLookup =>
      intro s hs
      simp [stepTransport] at hs
  | unload =>
      intro s hs
      simp only [stepTransport, asyncUnloadEntry] at hs ⊢
      by_cases hcnt : d.listenerRefCount - 1 ≤ 0
      · rw [if_pos hcnt] at hs ⊢
        cases hl : d.listener with
        | some lid =>
            rw [hl] at hs
            simp at hs
            have hn := hlt lid hl
            constructor
            · simp [stopLowerBound, hl, hs]
            · rw [hs]
              simp only [stopLowerBound]
              omega
        | none =>
            rw [hl] at hs
            simp at hs
      · rw [if_neg hcnt] at hs
        simp at hs

lemma runTransport_stops_lb (ops : List TransportOp) (d : DomainData)
    (h : DomainInv d) :
    ∀ s ∈ (runTransport d ops).2, stopLowerBound d ≤ s := by
  induction ops generalizing d with
  | nil => intro s hs; simp [runTransport] at hs
  | cons op ops ih =>
      intro s hs
      simp only [runTransport, List.mem_append] at hs
      rcases hs with hs | hs
      · exact (stepTransport_stops d op h s hs).1
      · have h1 := stepTransport_inv d op h
        have h2 := ih (stepTransport d op).1 h1 s hs
        exact le_trans (stepTransport_lb_mono d op h) h2

lemma runTransport_inv (ops : List TransportOp) (d : DomainData)
    (h : DomainInv d) :
    DomainInv (runTransport d ops).1 ∧
      (runTransport d ops).2.Pairwise (· < ·) := by
  induction ops generalizing d with
  | nil => exact ⟨h, by simp [runTransport]⟩
  | cons op ops ih =>
      have h1 := stepTransport_inv d op h
      obtain ⟨hinv, hpw⟩ := ih (stepTransport d op).1 h1
      refine ⟨hinv, ?_⟩
      simp only [runTransport]
      rw [List.pairwise_append]
      refine ⟨?_, hpw, ?_⟩
      · cases op with
        | setup startOk mac serial deviceLookup => simp [stepTransport]
        | unload =>
            simp only [stepTransport, asyncUnloadEntry]
            split
            · cases d.listener <;> simp
            · simp
      · intro a ha b hb
        have hlta := (stepTransport_stops d op h a ha).2
        have hlb := runTransport_stops_lb ops (stepTransport d op).1 h1 b hb
        omega

lemma asyncUnloadEntry_drain (d : DomainData)
    (h : d.listenerRefCount - 1 ≤ 0) :
    (asyncUnloadEntry d).1.listener = none ∧
    (asyncUnloadEntry d).1.listenerRefCount = 0 ∧
    (asyncUnloadEntry d).2.length =
      (if d.listener.isSome then 1 else 0) := by
  simp only [asyncUnloadEntry]
  rw [if_pos h]
  cases d.listener <;> simp

lemma setupAfterListener_snd (d : DomainData) (lid : Nat)
    (mac serial : Option String) (deviceLookup : Except Unit (Option Unit))
    (l2 : Nat)
    (h : (asyncSetupEntry.setupAfterListener d lid mac serial deviceLookup).2
          = .ok l2) :
    l2 = lid := by
  unfold asyncSetupEntry.setupAfterListener at h
  split at h
  · simp at h
  · split at h <;> simp_all

/-- C1: Transport refcount invariant.  For every sequence of entry setups
(acquires) and entry unloads (releases) starting from fresh domain data:
the shared UDP listener is present (running) iff the reference count is
positive; the count is never left negative; the trace of listener-stop
events is strictly increasing in listener ids, so no listener is ever
stopped twice; and from any reachable state, an unload that brings the
count to 0 or below stops the listener exactly once (when one is present),
clears it, and resets the count to 0, so a later setup creates a fresh
listener. -/
theorem transport_refcount_invariant (ops : List TransportOp) :
    ((runTransport initialDomainData ops).1.listener.isSome ↔
        0 < (runTransport initialDomainData ops).1.listenerRefCount) ∧
    0 ≤ (runTransport initialDomainData ops).1.listenerRefCount ∧
    (runTransport initialDomainData ops).2.Pairwise (· < ·) ∧
    ((runTransport initialDomainData ops).1.listenerRefCount - 1 ≤ 0 →
      (asyncUnloadEntry (runTransport initialDomainData ops).1).1.listener
          = none ∧
      (asyncUnloadEntry
          (runTransport initialDomainData ops).1).1.listenerRefCount = 0 ∧
      (asyncUnloadEntry (runTransport initialDomainData ops).1).2.length =
        (if (runTransport initialDomainData ops).1.listener.isSome
          then 1 else 0)) := by
  obtain ⟨⟨hiff, hge, _⟩, hpw⟩ :=
    runTransport_inv ops initialDomainData domainInv_initial
  exact ⟨hiff, hge, hpw,
    fun h => asyncUnloadEntry_drain (runTransport initialDomainData ops).1 h⟩

/-- Witness for `transport_refcount_invariant`: after one successful setup
the count is 1, so the next unload drains: it stops the listener exactly
once, clears it and resets the count to 0. -/
theorem transport_refcount_invariant_witness :
    (asyncUnloadEntry (runTransport initialDomainData
        [TransportOp.setup true (some "aabbccddeeff") (some "SN1")
          (.ok (some ()))]).1).1.listener = none ∧
    (asyncUnloadEntry (runTransport initialDomainData
        [TransportOp.setup true (some "aabbccddeeff") (some "SN1")
          (.ok (some ()))]).1).1.listenerRefCount = 0 ∧
    (asyncUnloadEntry (runTransport initialDomainData
        [TransportOp.setup true (some "aabbccddeeff") (some "SN1")
          (.ok (some ()))]).1).2.length =
      (if (runTransport initialDomainData
        [TransportOp.setup true (some "aabbccddeeff") (some "SN1")
          (.ok (some ()))]).1.listener.isSome then 1 else 0) :=
  (transport_refcount_invariant
    [TransportOp.setup true (some "aabbccddeeff") (some "SN1")
      (.ok (some ()))]).2.2.2 (by decide)

/-- C2 (code bug): `async_setup_entry` increments the shared listener's
reference count, then raises `ConfigEntryNotReady` on a failed setup
(here: missing `mac_address`) without releasing the acquired reference.
Evaluated at the failing input, the final count is 1, not the pre-setup
value 0 required by the claim / by section 5 of the spec. -/
theorem failed_setup_leaks_listener_reference :
    asyncSetupEntry initialDomainData true none (some "SN1")
        (.ok (some ())) =
      ({ listener := some 0, listenerRefCount := 1, nextListenerId := 1 },
        .error .missingIdentifiers) ∧
    (1 : Int) ≠ initialDomainData.listenerRefCount := by
  exact ⟨rfl, by decide⟩

/-- C7: listener acquisition on entry setup.  If no shared listener exists
and starting succeeds, a fresh listener (id `nextListenerId`) is created,
stored and used, and the count is incremented by exactly one; if a
listener exists it is reused (same id) with the count incremented by
exactly one; if starting fails the error propagates, the state is
unchanged (no listener stored, count unchanged), and the next setup
attempt creates and starts a fresh listener. -/
theorem setup_listener_acquire_reuse_retry (d : DomainData)
    (startOk : Bool) (mac serial : Option String)
    (deviceLookup : Except Unit (Option Unit)) :
    (d.listener = none →
      (asyncSetupEntry d true mac serial deviceLookup).1.listener
          = some d.nextListenerId ∧
      (asyncSetupEntry d true mac serial deviceLookup).1.listenerRefCount
          = d.listenerRefCount + 1 ∧
      (∀ lid, (asyncSetupEntry d true mac serial deviceLookup).2 = .ok lid →
        lid = d.nextListenerId)) ∧
    (∀ l, d.listener = some l →
      (asyncSetupEntry d startOk mac serial deviceLookup).1.listener
          = some l ∧
      (asyncSetupEntry d startOk mac serial deviceLookup).1.listenerRefCount
          = d.listenerRefCount + 1 ∧
      (∀ lid, (asyncSetupEntry d startOk mac serial deviceLookup).2 = .ok lid →
        lid = l)) ∧
    (d.listener = none →
      asyncSetupEntry d false mac serial deviceLookup
          = (d, .error .startFailed)) := by
  refine ⟨?_, ?_, ?_⟩
  · intro hl
    refine ⟨?_, ?_, ?_⟩
    · simp [asyncSetupEntry_fst, hl]
    · simp [asyncSetupEntry_fst, hl]
    · intro lid hok
      unfold asyncSetupEntry at hok
      rw [hl] at hok
      simp only [if_true] at hok
      exact setupAfterListener_snd _ _ _ _ _ _ hok
  · intro l hl
    refine ⟨?_, ?_, ?_⟩
    · simp [asyncSetupEntry_fst, hl]
    · simp [asyncSetupEntry_fst, hl]
    · intro lid hok
      unfold asyncSetupEntry at hok
      rw [hl] at hok
      exact setupAfterListener_snd _ _ _ _ _ _ hok
  · intro hl
    unfold asyncSetupEntry
    rw [hl]
    simp

/-- Witness for `setup_listener_acquire_reuse_retry`: from fresh domain
data, a failed start leaves the state unchanged, and a successful setup
stores listener 0 and takes the count from 0 to 1. -/
theorem setup_listener_acquire_reuse_retry_witness :
    (asyncSetupEntry initialDomainData true (some "aabbccddeeff")
        (some "SN1") (.ok (some ()))).1.listener = some 0 ∧
    (asyncSetupEntry initialDomainData true (some "aabbccddeeff")
        (some "SN1") (.ok (some ()))).1.listenerRefCount
        = initialDomainData.listenerRefCount + 1 ∧
    asyncSetupEntry initialDomainData false (some "aabbccddeeff")
        (some "SN1") (.ok (some ()))
        = (initialDomainData, .error .startFailed) := by
  have h := setup_listener_acquire_reuse_retry initialDomainData false
    (some "aabbccddeeff") (some "SN1") (.ok (some ()))
  have h1 := h.1 rfl
  exact ⟨h1.1, h1.2.1, h.2.2 rfl⟩

/-! ## Device state and coordinator (`coordinator.py`)

The libpixelair `DeviceState` is embedded with the fields the integration
reads; normalized floats in [0,1] are embedded as rationals.  Opaque
library calls (`resolve_ip`, `get_state`, the command methods) are
modelled by passing their outcome as an argument. -/

structure EffectInfo where
  id : String
  display_name : String
deriving DecidableEq, Repr

structure DeviceState where
  is_on : Bool
  brightness : ℚ
  hue : ℚ
  saturation : ℚ
  current_effect : Option String
  effect_list : List String
  effects : List EffectInfo
  model : Option String
  nickname : Option String
  firmware_version : Option String
  state_counter : Nat
deriving DecidableEq, Repr

inductive DeviceMode where
  | AUTO
  | SCENE
  | MANUAL
deriving DecidableEq, Repr

/-- A device session; `state` is the library's locally held (optimistic or
confirmed) device state, read by `_update_optimistic_state`. -/
structure Device where
  state : DeviceState
deriving DecidableEq, Repr

/-- The coordinator's outward-visible effect: the ordered list of state
publishes made via `async_set_updated_data`. -/
structure Coordinator where
  published : List DeviceState
deriving DecidableEq, Repr

/-- Embedding of `async_set_updated_data`: one atomic publish of a device
state to all consumers. -/
def asyncSetUpdatedData (c : Coordinator) (s : DeviceState) : Coordinator :=
  { published := c.published ++ [s] }

/-- Embedding of `PixelAirCoordinator._update_optimistic_state`: publishes
the device's current (optimistic) state. -/
def updateOptimisticState (c : Coordinator) (device : Device) : Coordinator :=
  asyncSetUpdatedData c device.state

/-- Embedding of `PixelAirCoordinator._async_update_data` (the initial
refresh, `coordinator.py` lines 145-173).  `resolveIpResult` is the
outcome of `await self.device.resolve_ip(...)`, whose failure is caught by
the inner `try` and only logged; `getStateResult` is the outcome of
`await self.device.get_state(...)` (`.error` = the call raised, `.ok none`
= no state returned).  Errors are surfaced as `UpdateFailed`, embedded as
`Except String` with the source's messages. -/
def asyncUpdateData (resolveIpResult : Except Unit Unit)
    (getStateResult : Except Unit (Option DeviceState)) :
    Except String DeviceState :=
  let _ : Unit :=
    match resolveIpResult with
    | .error _ => ()
    | .ok _ => ()
  match getStateResult with
  | .error _ => .error "Error communicating with device"
  | .ok none => .error "Failed to get device state"
  | .ok (some state) => .ok state

/-- C3: the coordinator's initial refresh ignores the outcome of the
(non-fatal) IP re-resolution, raises `UpdateFailed` iff `get_state` raises
or returns no state, and otherwise returns the fetched `DeviceState`
unchanged. -/
theorem initial_refresh_failure_semantics
    (r r2 : Except Unit Unit) (g : Except Unit (Option DeviceState)) :
    (asyncUpdateData r g = asyncUpdateData r2 g) ∧
    ((∃ e, asyncUpdateData r g = .error e) ↔ (g = .error () ∨ g = .ok none)) ∧
    (∀ s, g = .ok (some s) → asyncUpdateData r g = .ok s) := by
  refine ⟨?_, ?_, ?_⟩
  · cases r <;> cases r2 <;> rfl
  · constructor
    · rintro ⟨e, he⟩
      match g with
      | .error () => exact Or.inl rfl
      | .ok none => exact Or.inr rfl
      | .ok (some s) => simp [asyncUpdateData] at he
    · rintro (rfl | rfl)
      · exact ⟨"Error communicating with device", rfl⟩
      · exact ⟨"Failed to get device state", rfl⟩
  · rintro s rfl
    rfl

/-- Concrete device state used in witnesses and counterexamples. -/
def sampleState : DeviceState :=
  { is_on := true, brightness := 1/2, hue := 0, saturation := 0,
    current_effect := some "auto", effect_list := ["Auto"],
    effects := [{ id := "auto", display_name := "Auto" }],
    model := some "Fluora", nickname := none,
    firmware_version := some "1.0", state_counter := 3 }

/-- Witness for `initial_refresh_failure_semantics`: a failed resolve with
a successful fetch still returns the fetched state, and a `get_state`
returning no state yields `UpdateFailed`. -/
theorem initial_refresh_failure_semantics_witness :
    asyncUpdateData (.error ()) (.ok (some sampleState)) =
        .ok sampleState ∧
    (∃ e, asyncUpdateData (.ok ()) (.ok none) = Except.error e) :=
  ⟨(initial_refresh_failure_semantics (.error ()) (.ok ())
      (.ok (some sampleState))).2.2 sampleState rfl,
    (initial_refresh_failure_semantics (.ok ()) (.error ())
      (.ok none)).2.1.mpr (Or.inr rfl)⟩

/-! ### Command operations

Each coordinator command is `await self.device.<cmd>(...)` followed by
`self._update_optimistic_state()`.  The library call's outcome is passed
as an `Except Unit Device` (the updated device, whose `state` the library
has already adjusted optimistically, or the propagated exception). -/

/-- Embedding of `PixelAirCoordinator.async_turn_on`. -/
def asyncTurnOn (c : Coordinator) (turnOn : Except Unit Device) :
    Except Unit Coordinator :=
  match turnOn with
  | .error e => .error e
  | .ok device => .ok (updateOptimisticState c device)

/-- Embedding of `PixelAirCoordinator.async_turn_off`. -/
def asyncTurnOff (c : Coordinator) (turnOff : Except Unit Device) :
    Except Unit Coordinator :=
  match turnOff with
  | .error e => .error e
  | .ok device => .ok (updateOptimisticState c device)

/-- Embedding of `PixelAirCoordinator.async_set_brightness`. -/
def asyncSetBrightness (c : Coordinator) (brightness : ℚ)
    (setBrightnessCmd : ℚ → Except Unit Device) : Except Unit Coordinator :=
  match setBrightnessCmd brightness with
  | .error e => .error e
  | .ok device => .ok (updateOptimisticState c device)

/-- Embedding of `PixelAirCoordinator.async_set_hue`. -/
def asyncSetHue (c : Coordinator) (hue : ℚ)
    (setHueCmd : ℚ → Except Unit Device) : Except Unit Coordinator :=
  match setHueCmd hue with
  | .error e => .error e
  | .ok device => .ok (updateOptimisticState c device)

/-- Embedding of `PixelAirCoordinator.async_set_saturation`. -/
def asyncSetSaturation (c : Coordinator) (saturation : ℚ)
    (setSaturationCmd : ℚ → Except Unit Device) : Except Unit Coordinator :=
  match setSaturationCmd saturation with
  | .error e => .error e
  | .ok device => .ok (updateOptimisticState c device)

/-- Embedding of `PixelAirCoordinator.async_set_effect`. -/
def asyncSetEffect (c : Coordinator) (effectId : String)
    (setEffectCmd : String → Except Unit Device) : Except Unit Coordinator :=
  match setEffectCmd effectId with
  | .error e => .error e
  | .ok device => .ok (updateOptimisticState c device)

/-- Embedding of `PixelAirCoordinator.async_set_mode`. -/
def asyncSetMode (c : Coordinator) (mode : DeviceMode)
    (setModeCmd : DeviceMode → Except Unit Device) : Except Unit Coordinator :=
  match setModeCmd mode with
  | .error e => .error e
  | .ok device => .ok (updateOptimisticState c device)

/-- C4: every coordinator command operation publishes the device's current
optimistic state exactly once (the publish list is extended by exactly
that one state) when the device command succeeds, and propagates the
exception with no publish when it fails. -/
theorem command_optimistic_publish (c : Coordinator) (dev : Device)
    (e : Unit) (b hq sq : ℚ) (eid : String) (m : DeviceMode) :
    (asyncTurnOn c (.ok dev) = .ok ⟨c.published ++ [dev.state]⟩ ∧
      asyncTurnOn c (.error e) = .error e) ∧
    (asyncTurnOff c (.ok dev) = .ok ⟨c.published ++ [dev.state]⟩ ∧
      asyncTurnOff c (.error e) = .error e) ∧
    (asyncSetBrightness c b (fun _ => .ok dev)
        = .ok ⟨c.published ++ [dev.state]⟩ ∧
      asyncSetBrightness c b (fun _ => .error e) = .error e) ∧
    (asyncSetHue c hq (fun _ => .ok dev)
        = .ok ⟨c.published ++ [dev.state]⟩ ∧
      asyncSetHue c hq (fun _ => .error e) = .error e) ∧
    (asyncSetSaturation c sq (fun _ => .ok dev)
        = .ok ⟨c.published ++ [dev.state]⟩ ∧
      asyncSetSaturation c sq (fun _ => .error e) = .error e) ∧
    (asyncSetEffect c eid (fun _ => .ok dev)
        = .ok ⟨c.published ++ [dev.state]⟩ ∧
      asyncSetEffect c eid (fun _ => .error e) = .error e) ∧
    (asyncSetMode c m (fun _ => .ok dev)
        = .ok ⟨c.published ++ [dev.state]⟩ ∧
      asyncSetMode c m (fun _ => .error e) = .error e) := by
  exact ⟨⟨rfl, rfl⟩, ⟨rfl, rfl⟩, ⟨rfl, rfl⟩, ⟨rfl, rfl⟩, ⟨rfl, rfl⟩,
    ⟨rfl, rfl⟩, ⟨rfl, rfl⟩⟩

/-! ### Polling lifecycle (`async_start_polling` / `async_stop_polling`)

State of the coordinator's two polling flags, plus a trace of the device
operations performed (library calls). -/

structure PollState where
  stateCallbackRegistered : Bool
  pollingStarted : Bool
deriving DecidableEq, Repr

inductive DeviceOp where
  | addStateCallback
  | startPollingCall
  | stopPollingCall
  | removeStateCallback
deriving DecidableEq, Repr

/-- Embedding of `PixelAirCoordinator.async_start_polling`:
returns immediately if polling already started; otherwise registers the
state callback if not yet registered and calls the library's
`start_polling` (`startResult` its outcome; failure is caught and logged,
leaving `_polling_started` unset). -/
def asyncStartPolling (s : PollState) (startResult : Except Unit Unit) :
    PollState × List DeviceOp :=
  if s.pollingStarted then (s, [])
  else
    let r1 : PollState × List DeviceOp :=
      if !s.stateCallbackRegistered then
        ({ s with stateCallbackRegistered := true }, [.addStateCallback])
      else (s, [])
    match startResult with
    | .ok _ => ({ r1.1 with pollingStarted := true },
        r1.2 ++ [.startPollingCall])
    | .error _ => (r1.1, r1.2 ++ [.startPollingCall])

/-- Embedding of `PixelAirCoordinator.async_stop_polling`:
if polling is started, call the library's `stop_polling` (`stopResult` its
outcome; failure is caught and logged, leaving `_polling_started` set),
then remove the state callback if registered. -/
def asyncStopPolling (s : PollState) (stopResult : Except Unit Unit) :
    PollState × List DeviceOp :=
  let r1 : PollState × List DeviceOp :=
    if s.pollingStarted then
      match stopResult with
      | .ok _ => ({ s with pollingStarted := false }, [.stopPollingCall])
      | .error _ => (s, [.stopPollingCall])
    else (s, [])
  if r1.1.stateCallbackRegistered then
    ({ r1.1 with stateCallbackRegistered := false },
      r1.2 ++ [.removeStateCallback])
  else (r1.1, r1.2)

/-- C9: `async_stop_polling` is total and idempotent: on a coordinator
where polling was never started (both flags clear) it performs no device
operations and changes nothing; when the library's `stop_polling`
succeeds it always leaves both flags clear, so a second call in a row is
a no-op; and after a successful start, one stop call performs exactly the
library stop followed by the callback deregistration. -/
theorem stop_polling_idempotent (s : PollState)
    (r r2 : Except Unit Unit) :
    (asyncStopPolling ⟨false, false⟩ r = (⟨false, false⟩, [])) ∧
    ((asyncStopPolling s (.ok ())).1 = ⟨false, false⟩) ∧
    (asyncStopPolling (asyncStopPolling s (.ok ())).1 r2 =
      ((asyncStopPolling s (.ok ())).1, [])) ∧
    ((asyncStopPolling
        (asyncStartPolling ⟨false, false⟩ (.ok ())).1 (.ok ())).2 =
      [.stopPollingCall, .removeStateCallback]) := by
  obtain ⟨cb, ps⟩ := s
  cases cb <;> cases ps <;> cases r <;> cases r2 <;>
    exact ⟨rfl, rfl, rfl, rfl⟩

/-! ## Light entity (`light.py`)

`PixelAirLight` reads everything from its coordinator; the part of the
coordinator it observes is `data` (the last published `DeviceState`, or
none) and `last_update_success`. -/

structure CoordinatorView where
  data : Option DeviceState
  last_update_success : Bool
deriving DecidableEq, Repr

/-- Python's built-in `round`: round half to even. -/
def pyRound (q : ℚ) : ℤ :=
  let f := ⌊q⌋
  if q - f < 1/2 then f
  else if 1/2 < q - f then f + 1
  else if f % 2 = 0 then f else f + 1

namespace PixelAirLight

/-- Embedding of the `available` property: coordinator updated
successfully and has data. -/
def available (c : CoordinatorView) : Bool :=
  c.last_update_success && c.data.isSome

/-- Embedding of the `is_on` property. -/
def is_on (c : CoordinatorView) : Bool :=
  match c.data with
  | none => false
  | some state => state.is_on

/-- Embedding of the `brightness` property: device brightness scaled to
the Home Assistant 0-255 range. -/
def brightness (c : CoordinatorView) : Option ℤ :=
  match c.data with
  | none => none
  | some state => some (pyRound (state.brightness * 255))

/-- Embedding of the `hs_color` property: device hue and saturation
scaled to 0-360 and 0-100. -/
def hs_color (c : CoordinatorView) : Option (ℚ × ℚ) :=
  match c.data with
  | none => none
  | some state => some (state.hue * 360, state.saturation * 100)

/-- Embedding of the `effect` property. -/
def effect (c : CoordinatorView) : Option String :=
  match c.data with
  | none => none
  | some state => state.current_effect

/-- Embedding of the `effect_list` property. -/
def effect_list (c : CoordinatorView) : Option (List String) :=
  match c.data with
  | none => none
  | some state => some state.effect_list

end PixelAirLight

/-- C10: with no device state, the light reports unavailable, off, and no
brightness / hs_color / effect / effect_list; and a failed last update
makes it unavailable regardless of stale data. -/
theorem light_unavailable_semantics (c : CoordinatorView) :
    (c.data = none →
      PixelAirLight.available c = false ∧
      PixelAirLight.is_on c = false ∧
      PixelAirLight.brightness c = none ∧
      PixelAirLight.hs_color c = none ∧
      PixelAirLight.effect c = none ∧
      PixelAirLight.effect_list c = none) ∧
    (c.last_update_success = false → PixelAirLight.available c = false) := by
  constructor
  · intro hd
    refine ⟨?_, ?_, ?_, ?_, ?_, ?_⟩ <;>
      simp [PixelAirLight.available, PixelAirLight.is_on,
        PixelAirLight.brightness, PixelAirLight.hs_color,
        PixelAirLight.effect, PixelAirLight.effect_list, hd]
  · intro hs
    simp [PixelAirLight.available, hs]

/-- Witness for `light_unavailable_semantics`: a view with no data, and a
view with stale data but a failed last update. -/
theorem light_unavailable_semantics_witness :
    PixelAirLight.available ⟨none, true⟩ = false ∧
    PixelAirLight.brightness ⟨none, true⟩ = none ∧
    PixelAirLight.available ⟨some sampleState, false⟩ = false :=
  ⟨(light_unavailable_semantics ⟨none, true⟩).1 rfl |>.1,
    ((light_unavailable_semantics ⟨none, true⟩).1 rfl).2.2.1,
    (light_unavailable_semantics ⟨some sampleState, false⟩).2 rfl⟩

/-! ## Config flow (`config_flow.py`)

Discovery results, MAC normalization, the user discovery step with its
already-configured filter, the selection step, the confirmation step and
the DHCP verification step. -/

structure DiscoveredDevice where
  mac_address : String
  serial_number : String
  ip_address : String
  display_name : String
  model : Option String
deriving DecidableEq, Repr

/-- MAC normalization as used throughout `config_flow.py`:
`mac.lower().replace(":", "")`.  Replacing every colon by the empty
string is embedded as filtering colons out after lower-casing. -/
def normalizeMac (s : String) : String :=
  String.mk ((s.data.map Char.toLower).filter (fun ch => ch ≠ ':'))

lemma toNat_ofNat_valid (n : Nat) (hv : n.isValidChar) :
    (Char.ofNat n).toNat = n := by
  rw [Char.ofNat, dif_pos hv]
  simp only [Char.ofNatAux, Char.toNat]
  have hlt : n < 2 ^ 32 := by
    rcases hv with h | ⟨_, h⟩ <;> omega
  simp [UInt32.toNat, BitVec.toNat_ofNatLt]

lemma toLower_eq_colon_iff (c : Char) : Char.toLower c = ':' ↔ c = ':' := by
  constructor
  · intro h
    simp only [Char.toLower] at h
    by_cases hn : c.toNat ≥ 65 ∧ c.toNat ≤ 90
    · rw [if_pos hn] at h
      have hv : (c.toNat + 32).isValidChar := by left; omega
      have h2 := toNat_ofNat_valid (c.toNat + 32) hv
      rw [h] at h2
      have h4 : (':' : Char).toNat = 58 := by decide
      omega
    · rwa [if_neg hn] at h
  · intro h; subst h; decide

lemma map_toLower_filter_colon (l : List Char) :
    (l.map Char.toLower).filter (fun ch => ch ≠ ':') =
      (l.filter (fun ch => ch ≠ ':')).map Char.toLower := by
  induction l with
  | nil => rfl
  | cons a l ih =>
      by_cases ha : a = ':'
      · subst ha
        simp
        simpa using ih
      · have hla : Char.toLower a ≠ ':' :=
          fun h => ha ((toLower_eq_colon_iff a).mp h)
        simp [ha, hla]
        simpa using ih

/-- The data payload of a created config entry
(`CONF_NAME`, `CONF_MAC_ADDRESS`, `CONF_SERIAL_NUMBER`). -/
structure ConfigEntryData where
  name : String
  mac_address : String
  serial_number : String
deriving DecidableEq, Repr

/-- Embedding of the entry-creating branch of `async_step_confirm`
(`config_flow.py` lines 301-313): the entry title and data built from the
discovered device. -/
def asyncStepConfirm (dev : DiscoveredDevice) : String × ConfigEntryData :=
  (dev.display_name,
    { name := dev.display_name,
      mac_address := normalizeMac dev.mac_address,
      serial_number := dev.serial_number })

/-- Modelled from the spec: the canonical form of a MAC address is the
lower-case, colon-free string ("lower-case with all colons removed",
here: colons removed, then lower-cased). -/
def canonicalMacSpec (s : String) : String :=
  String.mk ((s.data.filter (fun ch => ch ≠ ':')).map Char.toLower)

/-- C6: the config entry created at confirmation stores exactly
`{name, mac_address, serial_number}` with the MAC in canonical form
(lower-case, all colons removed); in particular the stored MAC contains
no colon. -/
theorem confirm_entry_identity_record (dev : DiscoveredDevice) :
    asyncStepConfirm dev =
      (dev.display_name,
        { name := dev.display_name,
          mac_address := canonicalMacSpec dev.mac_address,
          serial_number := dev.serial_number }) ∧
    ':' ∉ ((asyncStepConfirm dev).2.mac_address).data := by
  constructor
  · simp only [asyncStepConfirm, normalizeMac, canonicalMacSpec,
      map_toLower_filter_colon]
  · intro hmem
    simp only [asyncStepConfirm, normalizeMac] at hmem
    have hp := List.of_mem_filter hmem
    simp at hp

/-- Results of the user-initiated discovery flow
(`async_abort` reasons, the confirmation step, or the selection form
holding the serial-keyed device dict in insertion order). -/
inductive FlowResult where
  | abortNoDevicesFound
  | abortAllDevicesConfigured
  | abortDeviceNotFound
  | abortAlreadyConfigured
  | confirmStep (device : DiscoveredDevice)
  | selectDeviceForm (stored : List (String × DiscoveredDevice))
deriving DecidableEq, Repr

/-- The filtering loop of `async_step_discovery` (lines 202-214): a device
is kept when `device.mac_address` is truthy and no current entry's
`unique_id` equals its normalized MAC.  `configured` is the list of
`unique_id`s of the current entries. -/
def newDiscoveredDevices (devices : List DiscoveredDevice)
    (configured : List String) : List DiscoveredDevice :=
  devices.filter (fun dev =>
    !dev.mac_address.isEmpty &&
      !(configured.contains (normalizeMac dev.mac_address)))

/-- Embedding of `async_step_discovery` (`config_flow.py` lines 198-233):
abort when nothing answered; filter out already-configured (and MAC-less)
devices; abort when nothing remains; confirm directly for a single
candidate (the `_abort_if_unique_id_configured()` there cannot fire, the
filter already removed configured MACs); otherwise store the serial-keyed
dict and show the selection form. -/
def asyncStepDiscovery (devices : List DiscoveredDevice)
    (configured : List String) : FlowResult :=
  if devices.isEmpty then .abortNoDevicesFound
  else
    let newDevices := newDiscoveredDevices devices configured
    if newDevices.isEmpty then .abortAllDevicesConfigured
    else
      match newDevices with
      | [dev] => .confirmStep dev
      | _ =>
          .selectDeviceForm
            (newDevices.map (fun dev => (dev.serial_number, dev)))

/-- Python dict lookup over a dict built by insertion in list order:
a later insertion with the same key overwrites an earlier one, so the
lookup scans from the end. -/
def dictGet (m : List (String × DiscoveredDevice)) (k : String) :
    Option DiscoveredDevice :=
  match m.reverse.find? (fun p => p.1 == k) with
  | none => none
  | some p => some p.2

/-- Embedding of the submission path of `async_step_select_device`
(`config_flow.py` lines 245-268): look the submitted serial up in the
stored dict; abort if absent; then `_abort_if_unique_id_configured()`
(abort when the chosen device's normalized MAC is already an entry's
unique id) and proceed to confirmation. -/
def asyncStepSelectDevice (stored : List (String × DiscoveredDevice))
    (configured : List String) (serial : String) : FlowResult :=
  match dictGet stored serial with
  | none => .abortDeviceNotFound
  | some dev =>
      if configured.contains (normalizeMac dev.mac_address) then
        .abortAlreadyConfigured
      else .confirmStep dev

/-- A discovered device that reports no MAC address. -/
def emptyMacDevice : DiscoveredDevice :=
  { mac_address := "", serial_number := "SN-001",
    ip_address := "192.168.1.50", display_name := "Fluora Plant",
    model := some "Fluora" }

lemma find?_serial_map (l : List DiscoveredDevice) (dev : DiscoveredDevice)
    (hmem : dev ∈ l)
    (hnd : (l.map (fun d2 => d2.serial_number)).Nodup) :
    (l.map (fun d2 => (d2.serial_number, d2))).reverse.find?
        (fun p => p.1 == dev.serial_number)
      = some (dev.serial_number, dev) := by
  induction l with
  | nil => simp at hmem
  | cons a l ih =>
      simp only [List.map_cons, List.reverse_cons, List.find?_append]
      simp only [List.map_cons, List.nodup_cons] at hnd
      obtain ⟨hna, hndl⟩ := hnd
      rcases List.mem_cons.mp hmem with rfl | hml
      · have hnone : (l.map (fun d2 => (d2.serial_number, d2))).reverse.find?
            (fun p => p.1 == dev.serial_number) = none := by
          rw [List.find?_eq_none]
          intro x hx
          rw [List.mem_reverse, List.mem_map] at hx
          obtain ⟨d2, hd2, rfl⟩ := hx
          simp only [beq_iff_eq]
          intro hc
          exact hna
            (hc ▸ List.mem_map_of_mem (fun d3 => d3.serial_number) hd2)
        rw [hnone]
        simp
      · rw [ih hml hndl]
        simp

/-- C5 counterexample: one device answered, it reports no MAC address,
and no entry is configured, so under the claim's filter (drop only
already-configured MACs) exactly one new candidate remains and the flow
should proceed to confirmation; the code instead drops the MAC-less
device inside the loop and aborts with "all devices configured". -/
theorem discovery_macless_counterexample :
    asyncStepDiscovery [emptyMacDevice] [] = .abortAllDevicesConfigured ∧
    (∀ u ∈ ([] : List String), u ≠ normalizeMac emptyMacDevice.mac_address) ∧
    FlowResult.abortAllDevicesConfigured ≠ .confirmStep emptyMacDevice := by
  refine ⟨rfl, by simp, by simp⟩

/-- C5 (amended): after dropping every device that reports no MAC address
as well as every device whose normalized MAC matches a configured entry:
no answers at all reports no devices found; an empty remainder reports
all devices configured; a single remaining candidate goes straight to
confirmation; two or more remaining candidates go to selection keyed by
serial number, and submitting a serial (unique among the candidates)
yields exactly the candidate with that serial number. -/
theorem discovery_disambiguation (devices : List DiscoveredDevice)
    (configured : List String) :
    (devices = [] →
      asyncStepDiscovery devices configured = .abortNoDevicesFound) ∧
    (devices ≠ [] → newDiscoveredDevices devices configured = [] →
      asyncStepDiscovery devices configured = .abortAllDevicesConfigured) ∧
    (∀ dev, newDiscoveredDevices devices configured = [dev] →
      asyncStepDiscovery devices configured = .confirmStep dev) ∧
    (2 ≤ (newDiscoveredDevices devices configured).length →
      asyncStepDiscovery devices configured = .selectDeviceForm
        ((newDiscoveredDevices devices configured).map
          (fun dev => (dev.serial_number, dev)))) ∧
    (∀ dev, dev ∈ newDiscoveredDevices devices configured →
      ((newDiscoveredDevices devices configured).map
        (fun d2 => d2.serial_number)).Nodup →
      asyncStepSelectDevice
        ((newDiscoveredDevices devices configured).map
          (fun d2 => (d2.serial_number, d2)))
        configured dev.serial_number = .confirmStep dev) := by
  refine ⟨?_, ?_, ?_, ?_, ?_⟩
  · rintro rfl
    rfl
  · intro hne hnew
    simp only [asyncStepDiscovery]
    rw [if_neg (by simpa using hne), hnew]
    simp
  · intro dev hnew
    have hne : devices ≠ [] := by
      intro hc
      subst hc
      simp [newDiscoveredDevices] at hnew
    simp only [asyncStepDiscovery]
    rw [if_neg (by simpa using hne), hnew]
    simp
  · intro hlen
    rcases h2 : newDiscoveredDevices devices configured
      with _ | ⟨a, _ | ⟨b, rest⟩⟩
    · rw [h2] at hlen; simp at hlen
    · rw [h2] at hlen; simp at hlen
    · have hne : devices ≠ [] := by
        intro hc
        subst hc
        simp [newDiscoveredDevices] at h2
      simp only [asyncStepDiscovery]
      rw [if_neg (by simpa using hne), h2]
      simp
  · intro dev hmem hnd
    simp only [asyncStepSelectDevice, dictGet]
    rw [find?_serial_map _ dev hmem hnd]
    have hkeep := (List.mem_filter.mp hmem).2
    simp only [Bool.and_eq_true, Bool.not_eq_true'] at hkeep
    have hnc : normalizeMac dev.mac_address ∉ configured := by
      simpa using hkeep.2
    simp [hnc]

/-- A discovered device with serial SN-001. -/
def devA : DiscoveredDevice :=
  { mac_address := "AA:BB:CC:DD:EE:01", serial_number := "SN-001",
    ip_address := "192.168.1.50", display_name := "Fluora Plant A",
    model := some "Fluora" }

/-- A discovered device with serial SN-002. -/
def devB : DiscoveredDevice :=
  { mac_address := "AA:BB:CC:DD:EE:02", serial_number := "SN-002",
    ip_address := "192.168.1.51", display_name := "Fluora Plant B",
    model := some "Fluora" }

/-- Witness for `discovery_disambiguation`: two new candidates lead to
the selection form, and submitting serial "SN-002" yields exactly the
device with that serial. -/
theorem discovery_disambiguation_witness :
    asyncStepDiscovery [devA, devB] [] = .selectDeviceForm
      ((newDiscoveredDevices [devA, devB] []).map
        (fun d2 => (d2.serial_number, d2))) ∧
    asyncStepSelectDevice
      ((newDiscoveredDevices [devA, devB] []).map
        (fun d2 => (d2.serial_number, d2)))
      [] devB.serial_number = .confirmStep devB :=
  ⟨(discovery_disambiguation [devA, devB] []).2.2.2.1 (by decide),
    (discovery_disambiguation [devA, devB] []).2.2.2.2 devB
      (by decide) (by decide)⟩

/-! ### DHCP-triggered verification (`async_step_dhcp`) -/

/-- Failure of the UDP probe: the `asyncio.TimeoutError` clause or the
generic `Exception` clause of `async_step_dhcp`. -/
inductive ProbeError where
  | timeoutErr
  | otherErr
deriving DecidableEq, Repr

/-- Results of the DHCP step. -/
inductive DhcpResult where
  | abortAlreadyConfigured
  | abortNotPixelAirDevice
  | dhcpConfirmStep (device : DiscoveredDevice)
deriving DecidableEq, Repr

/-- Embedding of `async_step_dhcp` (`config_flow.py` lines 47-130).
`verifyDevice` is the outcome of `discovery.verify_device(...)` and
`getDeviceInfo` that of `discovery.get_device_info(...)`; both may raise
(`.error`), caught by the step's `except` clauses, which abort instead of
propagating.  The function is total: no input makes it raise.  Note the
source checks the responder's MAC only when `device.mac_address` is
truthy; a responder reporting no MAC skips the check and is confirmed. -/
def asyncStepDhcp (dhcpMacAddress : String) (alreadyConfigured : Bool)
    (verifyDevice : Except ProbeError (Option DiscoveredDevice))
    (getDeviceInfo : DiscoveredDevice → Except ProbeError DiscoveredDevice) :
    DhcpResult :=
  let mac_address := normalizeMac dhcpMacAddress
  if alreadyConfigured then .abortAlreadyConfigured
  else
    match verifyDevice with
    | .error _ => .abortNotPixelAirDevice
    | .ok none => .abortNotPixelAirDevice
    | .ok (some device0) =>
        match getDeviceInfo device0 with
        | .error _ => .abortNotPixelAirDevice
        | .ok device =>
            if !device.mac_address.isEmpty then
              if normalizeMac device.mac_address ≠ mac_address then
                .abortNotPixelAirDevice
              else .dhcpConfirmStep device
            else .dhcpConfirmStep device

/-- C8 counterexample: a responder whose full info reports no MAC address
is confirmed by the code without any MAC check, although its (absent) MAC
does not match the DHCP-reported one; the claim says only a confirmed
matching device advances. -/
theorem dhcp_macless_counterexample :
    asyncStepDhcp "AA:BB:CC:DD:EE:01" false (.ok (some emptyMacDevice))
        (fun _ => .ok emptyMacDevice) = .dhcpConfirmStep emptyMacDevice ∧
    normalizeMac emptyMacDevice.mac_address
        ≠ normalizeMac "AA:BB:CC:DD:EE:01" ∧
    DhcpResult.dhcpConfirmStep emptyMacDevice
        ≠ DhcpResult.abortNotPixelAirDevice := by
  refine ⟨rfl, by decide, by simp⟩

/-- C8 (amended): for a host not already configured, a probe failure
(timeout or any exception), an absent response, or a responder that
reports a MAC address whose normalized form differs from the DHCP MAC
all abort as "not a PixelAir device" (the step never propagates the
exception); a responder whose normalized MAC matches advances to
confirmation, and a responder that reports no MAC address skips the
check and also advances. -/
theorem dhcp_verification_aborts (dhcpMac : String) (pe : ProbeError)
    (getInfo : DiscoveredDevice → Except ProbeError DiscoveredDevice)
    (device0 device : DiscoveredDevice) :
    (asyncStepDhcp dhcpMac false (.error pe) getInfo
        = .abortNotPixelAirDevice) ∧
    (asyncStepDhcp dhcpMac false (.ok none) getInfo
        = .abortNotPixelAirDevice) ∧
    (getInfo device0 = .error pe →
      asyncStepDhcp dhcpMac false (.ok (some device0)) getInfo
        = .abortNotPixelAirDevice) ∧
    (getInfo device0 = .ok device → device.mac_address.isEmpty = false →
      normalizeMac device.mac_address ≠ normalizeMac dhcpMac →
      asyncStepDhcp dhcpMac false (.ok (some device0)) getInfo
        = .abortNotPixelAirDevice) ∧
    (getInfo device0 = .ok device →
      normalizeMac device.mac_address = normalizeMac dhcpMac →
      asyncStepDhcp dhcpMac false (.ok (some device0)) getInfo
        = .dhcpConfirmStep device) ∧
    (getInfo device0 = .ok device → device.mac_address.isEmpty = true →
      asyncStepDhcp dhcpMac false (.ok (some device0)) getInfo
        = .dhcpConfirmStep device) := by
  refine ⟨rfl, rfl, ?_, ?_, ?_, ?_⟩
  · intro hinfo
    simp [asyncStepDhcp, hinfo]
  · intro hinfo hne hmac
    simp [asyncStepDhcp, hinfo, hne, hmac]
  · intro hinfo hmac
    simp [asyncStepDhcp, hinfo, hmac]
  · intro hinfo hemp
    simp [asyncStepDhcp, hinfo, hemp]

/-- Witness for `dhcp_verification_aborts`: a responder reporting a MAC
that does not match the DHCP-reported MAC aborts, and one reporting the
matching MAC advances to confirmation. -/
theorem dhcp_verification_aborts_witness :
    asyncStepDhcp "AA:BB:CC:DD:EE:01" false (.ok (some devB))
        (fun _ => .ok devB) = .abortNotPixelAirDevice ∧
    asyncStepDhcp "AA:BB:CC:DD:EE:02" false (.ok (some devB))
        (fun _ => .ok devB) = .dhcpConfirmStep devB :=
  ⟨(dhcp_verification_aborts "AA:BB:CC:DD:EE:01" .timeoutErr
      (fun _ => .ok devB) devB devB).2.2.2.1 rfl (by decide) (by decide),
    (dhcp_verification_aborts "AA:BB:CC:DD:EE:02" .timeoutErr
      (fun _ => .ok devB) devB devB).2.2.2.2.1 rfl (by decide)⟩

end PixelAir
